import Mathlib

/-!
Shallow embedding of the token-based authentication/authorization core and the
upstream RPC client of the odoo_api repository (src/core/config.py,
src/core/security.py, src/core/odoo_client.py, src/api/auth.py), together with
theorems settling the specification claims about it.

Python strings are Lean `String`s; Python dict-backed user records are Lean
structures with `Option` fields for keys that may be absent; Python truthiness
of optional strings/ints is made explicit by the `optStrTruthy`/`natTruthy`
helpers; the process-wide API_USERS dict is threaded explicitly as a `Store`
value; the JWT layer is modelled by the `TokenStr` type whose `signed`
constructor stands for a string correctly signed with the server's SECRET_KEY
and whose `raw` constructor stands for every other string.  External effects
(bcrypt verification, the XML-RPC transport) enter as explicit oracle
parameters.
-/

namespace OdooApi

/-! ## String helpers (Python `str.startswith`, `in`, `.lower()`) -/

/-- Python `s.startswith(pre)`, computed on the character list. -/
def startswith (s pre : String) : Bool :=
  pre.data.isPrefixOf s.data

/-- Occurrence check on character lists: does `needle` occur inside `hay`? -/
def listContainsSub (needle : List Char) : List Char → Bool
  | [] => needle.isEmpty
  | c :: rest => needle.isPrefixOf (c :: rest) || listContainsSub needle rest

/-- Python `needle in hay` on strings. -/
def strContainsSub (hay needle : String) : Bool :=
  listContainsSub needle.data hay.data

/-- Python `s.lower()` (character-wise, ASCII). -/
def strLower (s : String) : String :=
  ⟨s.data.map Char.toLower⟩

/-- Python truthiness of an optional string (`None` and `""` are falsy). -/
def optStrTruthy : Option String → Bool
  | none => false
  | some s => s ≠ ""

/-- Python truthiness of an optional integer (`None`, `False` and `0` are
falsy; the value `some 0` also stands for a literal `False`). -/
def natTruthy : Option Nat → Bool
  | none => false
  | some n => n ≠ 0

/-! ## src/core/config.py -/

/-- The default upstream connection settings (config.py `ODOO_CONFIG`). -/
structure OdooConfigRec where
  url : String
  db : String
  username : String
  api_key : String
deriving DecidableEq, Repr

/-- config.py lines 18-23 (the environment defaults). -/
def ODOO_CONFIG : OdooConfigRec :=
  { url := "https://erp.jnpgroupe.com"
    db := "OMHI-TEST"
    username := "admin@jnpgroupe.com"
    api_key := "33e3aa2baad77fc78418d2747d6b0c5616d5dcb6" }

/-- config.py `ACCESS_TOKEN_EXPIRE_MINUTES`. -/
def ACCESS_TOKEN_EXPIRE_MINUTES : Nat := 30

/-- The `odoo_config` dict attached to a user record: built at login from the
request's `odoo_db`/`odoo_username`/`odoo_api_key` fields (auth.py lines
53-58), or at validation time from the token plus the server's api_key
(security.py lines 138-141).  Values may be `None`. -/
structure AttachedConfig where
  db : Option String
  username : Option String
  api_key : Option String
deriving DecidableEq, Repr

/-- One API user record (an entry of config.py `API_USERS`, or the virtual
user synthesized for PIN logins).  Dict keys that are absent on some records
are `Option`-valued. -/
structure UserRec where
  username : String
  hashed_password : Option String := none
  is_active : Bool
  scopes : Option (List String)
  employee_id : Option Nat := none
  employee_name : Option String := none
  employee_matricule : Option String := none
  /-- whether the record carries `"auth_type": "pin"` -/
  auth_type_pin : Bool := false
  odoo_config : Option AttachedConfig := none
deriving DecidableEq, Repr

/-- The process-wide `API_USERS` dict, threaded explicitly. -/
abbrev Store := List (String × UserRec)

/-- Python `d.get(k)` on the user dict. -/
def storeGet (s : Store) (k : String) : Option UserRec :=
  match s.find? (fun e => e.1 == k) with
  | some e => some e.2
  | none => none

/-- In-place mutation of the dict entry at key `k` (Python mutates the shared
dict object returned by `API_USERS.get`). -/
def storeSet (s : Store) (k : String) (v : UserRec) : Store :=
  s.map (fun e => if e.1 == k then (k, v) else e)

/-- config.py API_USERS["admin"]. -/
def admin_user : UserRec :=
  { username := "admin"
    hashed_password := some "$2b$12$Ve.p30uPHQSVt2PBRTJU4.o37W2sD9vq7SMoR1UQJ4BkWb5/nsqVm"
    is_active := true
    scopes := some ["read", "write", "delete"] }

/-- config.py API_USERS["readonly"]. -/
def readonly_user : UserRec :=
  { username := "readonly"
    hashed_password := some "$2b$12$KpqzDOHWwGPgX0hLDcLKBOHm8JoQs7kB9aL5pF9VqKcwG2LYmK5MG"
    is_active := true
    scopes := some ["read"] }

/-- config.py API_USERS["admin@jnpgroupe.com"]. -/
def odoo_admin_user : UserRec :=
  { username := "admin@jnpgroupe.com"
    hashed_password := some "$2b$12$M6olJi2HJk/MCApZHJkKx.oJPo50QkKz6.QVtW2brH/CCdh31HJSe"
    is_active := true
    scopes := some ["read", "write", "delete"] }

/-- config.py lines 26-45: the initial contents of the API_USERS dict. -/
def API_USERS : Store :=
  [("admin", admin_user), ("readonly", readonly_user),
   ("admin@jnpgroupe.com", odoo_admin_user)]

/-! ## The JWT layer -/

/-- The `odoo_config` object embedded inside a token payload: auth.py lines
86-90 put exactly the keys `db` and `username` there (and deliberately not the
api_key). -/
structure TokenOdooConfig where
  db : Option String
  username : Option String
deriving DecidableEq, Repr

/-- A decoded JWT claim set, as produced by auth.py (login lines 78-91,
pin-login lines 247-254) and consumed by security.py `get_current_user`. -/
structure Payload where
  sub : Option String
  scopes : Option (List String)
  iat : Nat
  exp : Nat
  employee_id : Option Nat := none
  employee_name : Option String := none
  employee_matricule : Option String := none
  odoo_config : Option TokenOdooConfig := none
deriving DecidableEq, Repr

/-- A bearer-token string.  `signed p` stands for the unique JWT string that
carries claims `p` and is correctly signed with the server's SECRET_KEY;
`raw s` stands for any other string `s` (malformed, tampered, or signed with a
different key). -/
inductive TokenStr where
  | signed (p : Payload)
  | raw (s : String)
deriving DecidableEq, Repr

/-- Whether the presented credential string is empty (security.py line 62
`not credentials.credentials`): a correctly signed JWT is never the empty
string. -/
def tokIsEmpty : TokenStr → Bool
  | .signed _ => false
  | .raw s => s == ""

/-- The two error classes raised by `jose.jwt.decode`. -/
inductive JwtError where
  | expiredSignature
  | jwtError
deriving DecidableEq, Repr

/-- `jwt.decode(token, SECRET_KEY, algorithms=[ALGORITHM])`: signature check
then expiry check (jose raises ExpiredSignatureError when the `exp` claim is
strictly in the past). -/
def jwtDecode (now : Nat) : TokenStr → Except JwtError Payload
  | .raw _ => .error .jwtError
  | .signed p => if p.exp < now then .error .expiredSignature else .ok p

/-- security.py `create_access_token` (lines 38-51): copies the claim data and
sets `exp := now + expires_delta`, defaulting to ACCESS_TOKEN_EXPIRE_MINUTES;
the jose signing step is the `signed` constructor.  `expires_delta` is in
seconds. -/
def create_access_token (data : Payload) (now : Nat) (expires_delta : Option Nat) : TokenStr :=
  .signed { data with exp := now + expires_delta.getD (ACCESS_TOKEN_EXPIRE_MINUTES * 60) }

/-! ## src/core/security.py -/

/-- The rejection responses produced by the security layer. -/
inductive AuthError where
  /-- 401 "Token invalide ou expiré" (the `credentials_exception`). -/
  | credentialsExc
  /-- 401 "Token révoqué. Veuillez vous reconnecter." -/
  | revoked
  /-- 401 "Token expiré". -/
  | expired
  /-- 403 "Utilisateur désactivé". -/
  | disabled
  /-- 403 with the given detail (raised by `require_scope`). -/
  | forbidden (detail : String)
deriving DecidableEq, Repr

/-- The HTTP status carried by each security-layer rejection. -/
def AuthError.status : AuthError → Nat
  | .credentialsExc => 401
  | .revoked => 401
  | .expired => 401
  | .disabled => 403
  | .forbidden _ => 403

/-- security.py `authenticate_user` (lines 21-36).  The bcrypt comparison
`pwd_context.verify` is the external oracle `verify`; a record with no
`hashed_password` key raises a KeyError which the handler turns into `False`
(`none` here). -/
def authenticate_user (verify : String → String → Bool) (store : Store)
    (username password : String) : Option UserRec :=
  match storeGet store username with
  | none => none
  | some user =>
    match user.hashed_password with
    | none => none
    | some h => if verify password h then some user else none

/-- security.py `invalidate_token` (lines 155-159): add the raw token string
to the REVOKED_TOKENS set, unconditionally. -/
def invalidate_token (token : TokenStr) (revoked : List TokenStr) : List TokenStr :=
  if revoked.contains token then revoked else token :: revoked

/-- security.py `get_current_user` (lines 53-153), as a function of the
process state (`store` = API_USERS, `revoked` = REVOKED_TOKENS), the current
time and the presented bearer token.  Returns the resolved user record (or a
rejection) together with the possibly-mutated API_USERS store: the branch for
a standard user with an `odoo_config` claim writes through the shared dict
reference returned by `API_USERS.get` (lines 138-141). -/
def get_current_user (store : Store) (revoked : List TokenStr) (now : Nat)
    (tok : TokenStr) : (Except AuthError UserRec) × Store :=
  if tokIsEmpty tok then (.error .credentialsExc, store)
  else if revoked.contains tok then (.error .revoked, store)
  else
    match jwtDecode now tok with
    | .error .expiredSignature => (.error .expired, store)
    | .error .jwtError => (.error .credentialsExc, store)
    | .ok payload =>
      match payload.sub with
      | none => (.error .credentialsExc, store)
      | some username =>
        if startswith username "employee_" then
          if natTruthy payload.employee_id = false
              || optStrTruthy payload.employee_name = false then
            (.error .credentialsExc, store)
          else
            (.ok { username := username
                   is_active := true
                   scopes := some (payload.scopes.getD ["read", "pos"])
                   employee_id := payload.employee_id
                   employee_name := payload.employee_name
                   employee_matricule := payload.employee_matricule
                   auth_type_pin := true }, store)
        else
          match storeGet store username with
          | none => (.error .credentialsExc, store)
          | some user =>
            if user.is_active = false then (.error .disabled, store)
            else
              match payload.odoo_config with
              | none => (.ok user, store)
              | some cfg =>
                let attached : AttachedConfig :=
                  { db := cfg.db, username := cfg.username,
                    api_key := some ODOO_CONFIG.api_key }
                let user' := { user with odoo_config := some attached }
                (.ok user', storeSet store username user')

/-- security.py `require_scope` (lines 161-187): the scope checker applied to
an already-resolved user record. -/
def require_scope (required_scope : String) (current_user : UserRec) :
    Except AuthError UserRec :=
  match current_user.scopes with
  | none => .error (.forbidden "Permissions insuffisantes")
  | some scopes =>
    if current_user.auth_type_pin && required_scope == "pos" then
      .ok current_user
    else if scopes.contains required_scope = false then
      .error (.forbidden ("Permission insuffisante. Scope requis: " ++ required_scope))
    else
      .ok current_user

/-! ## src/api/auth.py -/

/-- An HTTP error response (FastAPI HTTPException). -/
structure HTTPExc where
  status : Nat
  detail : String
deriving DecidableEq, Repr

/-- A Python exception as seen by an `except` clause: either an HTTPException
or any other exception carrying a message.  HTTPException is a subclass of
Exception, so a bare `except Exception` catches both constructors. -/
inductive PyError where
  | http (e : HTTPExc)
  | exn (msg : String)
deriving DecidableEq, Repr

/-- The login request body (models/schemas.py `UserLogin`): a username, a
password, and three optional upstream-override fields.  There is no
url/endpoint field. -/
structure UserLogin where
  username : String
  password : String
  odoo_db : Option String := none
  odoo_username : Option String := none
  odoo_api_key : Option String := none
deriving DecidableEq, Repr

/-- auth.py `login` (lines 29-95): the credential check, the optional
upstream-override verification and store write, and the JWT minting.  The
response-shaping enrichment that follows (lines 97-185) only fills display
fields from the upstream and is not part of the modelled core.  `verify` is
the bcrypt oracle; `testConn` is the outcome of constructing the test
`OdooClient` with the caller's override (line 63).  Returns the minted token
(or the HTTP rejection) and the possibly-mutated API_USERS store (line 68
writes the override into the shared dict entry). -/
def login (verify : String → String → Bool) (testConn : Except String Unit)
    (now : Nat) (store : Store) (user_data : UserLogin) :
    (Except HTTPExc TokenStr) × Store :=
  if user_data.username == "" || user_data.password == "" then
    (.error ⟨400, "Le nom d'utilisateur et le mot de passe sont requis"⟩, store)
  else
    match authenticate_user verify store user_data.username user_data.password with
    | none =>
      (.error ⟨401, "Nom d'utilisateur ou mot de passe incorrect"⟩, store)
    | some user =>
      if optStrTruthy user_data.odoo_db || optStrTruthy user_data.odoo_username
          || optStrTruthy user_data.odoo_api_key then
        match testConn with
        | .error _ =>
          (.error ⟨401, "Échec de connexion à Odoo avec les identifiants fournis"⟩, store)
        | .ok _ =>
          let custom : AttachedConfig :=
            { db := user_data.odoo_db, username := user_data.odoo_username
              api_key := user_data.odoo_api_key }
          let user' := { user with odoo_config := some custom }
          (mintToken user' now, storeSet store user_data.username user')
      else
        (mintToken user now, store)
where
  /-- Lines 77-95: build `token_data` from the resolved user and sign it.
  `user["scopes"]` is a direct dict access, so a record without scopes would
  raise a KeyError that the outer handler turns into a 500. -/
  mintToken (user : UserRec) (now : Nat) : Except HTTPExc TokenStr :=
    match user.scopes with
    | none => .error ⟨500, "Erreur lors de la connexion"⟩
    | some sc =>
      .ok (create_access_token
        { sub := some user.username
          scopes := some sc
          iat := now
          exp := 0
          odoo_config := user.odoo_config.map (fun c => ⟨c.db, c.username⟩) }
        now (some (ACCESS_TOKEN_EXPIRE_MINUTES * 60)))

/-- One upstream employee record as returned by the `hr.employee` search in
pin-login (only the fields consumed by the modelled lines). -/
structure Employee where
  id : Nat
  name : String
deriving DecidableEq, Repr

/-- The body of the inner `try` of auth.py `pin_login` (lines 210-302) up to
the JWT minting: the upstream search for `(matricule, pin, active)` either
raises (`.exn`), returns no employee (line 227 raises HTTPException 401), or
returns the employee whose data is embedded in the minted token.  The
user-data enrichment that follows (lines 261-295) is response shaping and not
part of the modelled core.  `search` is the outcome of
`default_odoo_client.execute_kw('hr.employee', 'search_read', ...)`. -/
def pin_login_inner (now : Nat) (matricule : String)
    (search : Except String (List Employee)) : Except PyError TokenStr :=
  match search with
  | .error m => .error (.exn m)
  | .ok [] => .error (.http ⟨401, "Matricule ou PIN incorrect"⟩)
  | .ok (employee :: _) =>
    .ok (create_access_token
      { sub := some ("employee_" ++ toString employee.id)
        scopes := some ["read", "pos"]
        iat := now
        exp := 0
        employee_id := some employee.id
        employee_name := some employee.name
        employee_matricule := some matricule }
      now (some (ACCESS_TOKEN_EXPIRE_MINUTES * 60)))

/-- auth.py `pin_login` (lines 200-318).  The empty-field check precedes the
inner `try`; every exception escaping the inner body — including the
HTTPException(401) raised when no employee matches, since HTTPException is an
Exception — is caught by the inner `except Exception` (line 304) and replaced
by a 500; the outer `except HTTPException: raise` then lets that 500
through. -/
def pin_login (now : Nat) (matricule pin : String)
    (search : Except String (List Employee)) : Except HTTPExc TokenStr :=
  if matricule == "" || pin == "" then
    .error ⟨400, "Le matricule et le PIN sont requis"⟩
  else
    match pin_login_inner now matricule search with
    | .ok tok => .ok tok
    | .error _ =>
      .error ⟨500, "Erreur lors de la vérification des informations d'employé"⟩

/-- auth.py `logout` (lines 583-616): the `get_current_user` dependency must
first resolve the presented bearer token; the body then adds the token string
from the request body to the revocation set, without comparing it to the
bearer token or checking it in any way.  Returns the response, the new
REVOKED_TOKENS set and the (possibly mutated by validation) store. -/
def logout (store : Store) (revoked : List TokenStr) (now : Nat)
    (bearer : TokenStr) (logout_token : TokenStr) :
    (Except AuthError Bool) × List TokenStr × Store :=
  match get_current_user store revoked now bearer with
  | (.error e, store') => (.error e, revoked, store')
  | (.ok _, store') => (.ok true, invalidate_token logout_token revoked, store')

/-! ## src/core/odoo_client.py -/

/-- The mutable fields of an `OdooClient` instance. `uid` is the upstream
session handle: `none` is Python `None`, `some 0` also stands for the literal
`False` returned by a rejected upstream authenticate call (all three are
falsy). -/
structure ClientState where
  url : String
  db : String
  username : String
  api_key : String
  uid : Option Nat := none
deriving DecidableEq, Repr

/-- Whether the client holds a truthy session handle (`if not self.uid`). -/
def ClientState.authenticated (st : ClientState) : Bool :=
  natTruthy st.uid

/-- The outcome of one remote `common.authenticate` call: either the
transport raises an exception with message `msg`, or the upstream returns a
uid (`ret 0` standing for a falsy `False`/`0` return). -/
inductive AuthAttempt where
  | exn (msg : String)
  | ret (uid : Nat)
deriving DecidableEq, Repr

/-- Whether the attempt fails the `if self.uid:` success test. -/
def AuthAttempt.fails : AuthAttempt → Bool
  | .exn _ => true
  | .ret u => u == 0

/-- The `str(e)` text that an attempt contributes to `last_error`: the
transport message, or the message of the exception raised on a falsy return
(odoo_client.py line 43). -/
def AuthAttempt.errMsg : AuthAttempt → String
  | .exn m => m
  | .ret _ => "Identifiants Odoo incorrects"

/-- Python `f"{last_error}"` on an optional string. -/
def errText : Option String → String
  | none => "None"
  | some m => m

deriving instance DecidableEq for Except

/-- The result of running `_authenticate`: the final client state, the
outcome (the error string is the raised exception's message), the number of
remote attempts made, and the number of `time.sleep(1)` calls performed. -/
structure AuthRun where
  state : ClientState
  result : Except String Unit
  attempts : Nat
  sleeps : Nat
deriving DecidableEq, Repr

/-- The retry loop of `OdooClient._authenticate` (odoo_client.py lines
30-50): `fuel` is `max_retries - retry_count`; the oracle gives the upstream
behaviour of each attempt, indexed by `retry_count`.  Each attempt assigns
`self.uid` when the remote call returns (even a falsy value), returns on a
truthy uid, and otherwise records the error, increments the counter and
sleeps one second before the `while` condition is re-tested. -/
def authGo (oracle : Nat → AuthAttempt) :
    Nat → Nat → ClientState → Option String → Nat → AuthRun
  | 0, attempted, st, lastErr, sleeps =>
    { state := st
      result := .error ("Échec de l'authentification Odoo: " ++ errText lastErr)
      attempts := attempted
      sleeps := sleeps }
  | fuel + 1, attempted, st, lastErr, sleeps =>
    match oracle attempted with
    | .exn m => authGo oracle fuel (attempted + 1) st (some m) (sleeps + 1)
    | .ret u =>
      let st' := { st with uid := some u }
      if u ≠ 0 then
        { state := st', result := .ok (), attempts := attempted + 1, sleeps := sleeps }
      else
        authGo oracle fuel (attempted + 1) st'
          (some "Identifiants Odoo incorrects") (sleeps + 1)

/-- `OdooClient._authenticate` (odoo_client.py lines 24-54): up to
`max_retries = 3` attempts; on exhaustion raises an exception whose message
carries the last error. -/
def authenticate' (oracle : Nat → AuthAttempt) (st : ClientState) : AuthRun :=
  authGo oracle 3 0 st none 0

/-- The outcome of one remote `models.execute_kw` call. -/
inductive CallOutcome (α : Type) where
  | ret (v : α)
  | exn (msg : String)
deriving DecidableEq, Repr

/-- The upstream behaviour visible to one attempt of `execute_kw`: the
oracle for an `_authenticate` run triggered by a falsy uid before the call,
the remote call's outcome, and the oracle for the recovery `_authenticate`
run after a session-expiry/access-denied failure. -/
structure AttemptEnv (α : Type) where
  preAuth : Nat → AuthAttempt
  call : CallOutcome α
  recovAuth : Nat → AuthAttempt

/-- The session-expiry/access-denied pattern test of odoo_client.py line 80:
`"session expired" in last_error.lower() or "access denied" in
last_error.lower()`. -/
def sessionErrPattern (lastError : String) : Bool :=
  strContainsSub (strLower lastError) "session expired"
    || strContainsSub (strLower lastError) "access denied"

/-- One iteration of the `execute_kw` `try` body (odoo_client.py lines
64-72): re-authenticate first if the uid is falsy (an exception from that
`_authenticate` escapes into the surrounding `except`), then perform the
remote call. -/
def runAttempt {α : Type} (env : AttemptEnv α) (st : ClientState) :
    ClientState × Except String α :=
  if st.authenticated = false then
    let ar := authenticate' env.preAuth st
    match ar.result with
    | .error m => (ar.state, .error m)
    | .ok _ =>
      match env.call with
      | .ret v => (ar.state, .ok v)
      | .exn m => (ar.state, .error m)
  else
    match env.call with
    | .ret v => (st, .ok v)
    | .exn m => (st, .error m)

/-- The recovery step of the `execute_kw` `except` clause (odoo_client.py
lines 80-85): when the failure message matches the session pattern, run
`_authenticate` once more, swallowing its own failure but keeping its state
mutations. -/
def recover {α : Type} (env : AttemptEnv α) (st : ClientState)
    (lastError : String) : ClientState :=
  if sessionErrPattern lastError then (authenticate' env.recovAuth st).state
  else st

/-- The result of an `execute_kw` call: final client state, outcome (the
error string is the raised exception's message), and the number of
`time.sleep(1)` calls performed. -/
structure CallRun (α : Type) where
  state : ClientState
  result : Except String α
  sleeps : Nat

/-- `OdooClient.execute_kw` (odoo_client.py lines 56-93), with the
`max_retries = 2` loop unrolled: at most two attempts, a recovery
re-authentication after a session-pattern failure, a one-second sleep before
the second attempt only, and on exhaustion an exception whose message is
`"Erreur Odoo: "` followed by the last error text — the model and method
names appear in the log line (line 92) but not in the raised exception
(line 93). -/
def execute_kw (α : Type) (env : Nat → AttemptEnv α) (model method : String)
    (st : ClientState) : CallRun α :=
  let a1 := runAttempt (env 0) st
  match a1.2 with
  | .ok v => { state := a1.1, result := .ok v, sleeps := 0 }
  | .error e1 =>
    let st1 := recover (env 0) a1.1 e1
    let a2 := runAttempt (env 1) st1
    match a2.2 with
    | .ok v => { state := a2.1, result := .ok v, sleeps := 1 }
    | .error e2 =>
      { state := recover (env 1) a2.1 e2
        result := .error ("Erreur Odoo: " ++ e2)
        sleeps := 1 }

/-! ## Definitions modelled from the spec, for refinement comparison -/

/-- Modelled from the spec: section 3's token invariant says the secret is
re-joined "from server-side configuration at validation time … keyed by the
override's account name".  The only server-side account-to-secret
configuration in the program is ODOO_CONFIG, which maps its single configured
account to its api_key; an account-keyed lookup yields nothing for any other
account. -/
def spec_rejoined_secret (account : Option String) : Option String :=
  if account = some ODOO_CONFIG.username then some ODOO_CONFIG.api_key else none

/-! ## Helper lemmas -/

theorem contains_invalidate_token (t : TokenStr) (rev : List TokenStr) :
    (invalidate_token t rev).contains t = true := by
  unfold invalidate_token
  split
  · assumption
  · simp [List.contains_cons]

theorem contains_eq_true_iff_mem (a : String) (l : List String) :
    l.contains a = true ↔ a ∈ l := by simp

theorem mem_invalidate_token (t : TokenStr) (rev : List TokenStr) :
    t ∈ invalidate_token t rev := by
  unfold invalidate_token
  split
  · next hc =>
    simp only [List.contains] at hc
    exact List.mem_of_elem_eq_true hc
  · exact List.mem_cons_self t rev

theorem storeGet_storeSet_self (s : Store) (k : String) (u v : UserRec)
    (h : storeGet s k = some u) : storeGet (storeSet s k v) k = some v := by
  induction s with
  | nil => simp [storeGet, List.find?] at h
  | cons e es ih =>
    rcases e with ⟨k', u'⟩
    by_cases hk : k' == k
    · simp [storeGet, storeSet, List.find?, hk]
    · simp only [storeGet, storeSet, List.find?, List.map_cons] at h ⊢
      simp only [hk, Bool.false_eq_true, if_false] at h ⊢
      exact ih h

/-- The user record produced by the override branch of `get_current_user`
(security.py lines 138-141): the token's override with the server-side
api_key attached. -/
def withAttachedOverride (user : UserRec) (cfg : TokenOdooConfig) : UserRec :=
  { user with odoo_config := some ⟨cfg.db, cfg.username, some ODOO_CONFIG.api_key⟩ }

theorem get_current_user_std_override (store : Store) (rev : List TokenStr)
    (now : Nat) (p : Payload) (cfg : TokenOdooConfig) (uname : String) (user : UserRec)
    (hsub : p.sub = some uname)
    (hemp : startswith uname "employee_" = false)
    (hrev : (TokenStr.signed p) ∉ rev)
    (hexp : ¬ p.exp < now)
    (hcfg : p.odoo_config = some cfg)
    (hstore : storeGet store uname = some user)
    (hact : user.is_active = true) :
    get_current_user store rev now (.signed p) =
      (.ok (withAttachedOverride user cfg),
       storeSet store uname (withAttachedOverride user cfg)) := by
  unfold get_current_user withAttachedOverride
  simp [tokIsEmpty, hrev, jwtDecode, hexp, hsub, hemp, hcfg, hstore, hact]

theorem get_current_user_std_plain (store : Store) (rev : List TokenStr)
    (now : Nat) (p : Payload) (uname : String) (user : UserRec)
    (hsub : p.sub = some uname)
    (hemp : startswith uname "employee_" = false)
    (hrev : (TokenStr.signed p) ∉ rev)
    (hexp : ¬ p.exp < now)
    (hcfg : p.odoo_config = none)
    (hstore : storeGet store uname = some user)
    (hact : user.is_active = true) :
    get_current_user store rev now (.signed p) = (.ok user, store) := by
  unfold get_current_user
  simp [tokIsEmpty, hrev, jwtDecode, hexp, hsub, hemp, hcfg, hstore, hact]

/-! ## Claim theorems -/

/-- C1: a badge-login request whose (badgeNumber, pin) pair matches no active
upstream employee (the upstream search returns no record) does not fail with
401: the handler raises the intended HTTPException 401 "Matricule ou PIN
incorrect" (second conjunct, the inner body), but the enclosing blanket
`except Exception` catches it — HTTPException is a subclass of Exception —
and replaces it with a 500, so the operation surfaces HTTP 500 (first
conjunct).  No token is ever returned (third conjunct). -/
theorem c1_pin_login_no_match_is_500 :
    pin_login 0 "X999" "0000" (.ok []) =
      .error ⟨500, "Erreur lors de la vérification des informations d'employé"⟩
    ∧ pin_login_inner 0 "X999" (.ok []) =
      .error (.http ⟨401, "Matricule ou PIN incorrect"⟩)
    ∧ ∀ tok : TokenStr, pin_login 0 "X999" "0000" (.ok []) ≠ .ok tok := by
  refine ⟨by decide, by decide, ?_⟩
  intro tok h
  rw [show pin_login 0 "X999" "0000" (.ok []) =
    .error ⟨500, "Erreur lors de la vérification des informations d'employé"⟩
    from by decide] at h
  exact Except.noConfusion h

/-- C2 counterexample: for the empty token string, revoke followed by
validate fails with the generic invalid-token 401 (the credential-presence
check at security.py line 62 fires before the revocation-set check), not with
Revoked — so the claim quantified over every token string fails at `""`. -/
theorem c2_counterexample_empty_string :
    (get_current_user API_USERS (invalidate_token (.raw "") []) 0 (.raw "")).1 =
      .error .credentialsExc
    ∧ (get_current_user API_USERS (invalidate_token (.raw "") []) 0 (.raw "")).1 ≠
      .error .revoked := by decide

/-- C2 (amended): for every nonempty token string t — expired, malformed,
never issued, or valid — revoke(t) followed by validate(t) fails with
Revoked: the revocation-set membership check is an independent gate performed
before signature decoding. -/
theorem c2_revoke_then_validate_revoked (store : Store) (rev : List TokenStr)
    (now : Nat) (t : TokenStr) (h : tokIsEmpty t = false) :
    (get_current_user store (invalidate_token t rev) now t).1 = .error .revoked := by
  unfold get_current_user
  simp [h, mem_invalidate_token]

/-- Witness for the amended C2 at a never-issued, malformed token string. -/
theorem c2_witness :
    tokIsEmpty (TokenStr.raw "never-issued-garbage") = false
    ∧ (get_current_user API_USERS
        (invalidate_token (.raw "never-issued-garbage") []) 0
        (.raw "never-issued-garbage")).1 = .error .revoked :=
  ⟨by decide,
   c2_revoke_then_validate_revoked API_USERS [] 0 (.raw "never-issued-garbage") (by decide)⟩

/-- C10: for every string t supplied in the logout body by a caller whose
bearer token validates, the logout operation succeeds and the new revocation
set is exactly `invalidate_token t rev` — t is added unconditionally, with no
comparison against the presented bearer token and no well-formedness check,
so an authenticated caller can revoke an arbitrary string, including another
user's token. -/
theorem c10_logout_revokes_arbitrary_string (store : Store) (rev : List TokenStr)
    (now : Nat) (bearer : TokenStr) (u : UserRec) (store' : Store) (t : TokenStr)
    (h : get_current_user store rev now bearer = (.ok u, store')) :
    (logout store rev now bearer t).1 = .ok true
    ∧ (logout store rev now bearer t).2.1 = invalidate_token t rev
    ∧ ((logout store rev now bearer t).2.1).contains t = true := by
  unfold logout
  rw [h]
  exact ⟨rfl, rfl, contains_invalidate_token t rev⟩

/-- Witness for C10: the admin bearer token revokes a string that is not its
own token (another user's token, here a raw string). -/
theorem c10_witness :
    (logout API_USERS [] 5
        (.signed { sub := some "admin", scopes := some ["read", "write", "delete"],
                   iat := 0, exp := 100 })
        (.raw "some-other-users-token")).1 = .ok true
    ∧ (logout API_USERS [] 5
        (.signed { sub := some "admin", scopes := some ["read", "write", "delete"],
                   iat := 0, exp := 100 })
        (.raw "some-other-users-token")).2.1 =
        invalidate_token (.raw "some-other-users-token") []
    ∧ ((logout API_USERS [] 5
        (.signed { sub := some "admin", scopes := some ["read", "write", "delete"],
                   iat := 0, exp := 100 })
        (.raw "some-other-users-token")).2.1).contains
          (.raw "some-other-users-token") = true :=
  c10_logout_revokes_arbitrary_string API_USERS [] 5
    (.signed { sub := some "admin", scopes := some ["read", "write", "delete"],
               iat := 0, exp := 100 })
    admin_user API_USERS (.raw "some-other-users-token") (by decide)

/-- C4 counterexample: two calls that differ only in the model and method —
same upstream behaviour, both attempts failing with last error "boom" — raise
the very same error value, `Exception("Erreur Odoo: boom")`; the raised error
therefore cannot carry the model or the method (they appear only in the log
line of odoo_client.py line 92). -/
theorem c4_counterexample_error_ignores_model_method :
    (execute_kw String (fun _ => ⟨fun _ => .exn "down", .exn "boom", fun _ => .exn "down"⟩)
        "res.partner" "read" ⟨"u", "d", "n", "k", some 7⟩).result =
      .error "Erreur Odoo: boom"
    ∧ (execute_kw String (fun _ => ⟨fun _ => .exn "down", .exn "boom", fun _ => .exn "down"⟩)
        "hr.employee" "unlink" ⟨"u", "d", "n", "k", some 7⟩).result =
      (execute_kw String (fun _ => ⟨fun _ => .exn "down", .exn "boom", fun _ => .exn "down"⟩)
        "res.partner" "read" ⟨"u", "d", "n", "k", some 7⟩).result := by
  constructor
  · decide
  · decide

/-- C4 (amended): when both attempts of a remote call fail, the operation
raises an error whose message is exactly "Erreur Odoo: " followed by the last
error text — for every model and method, which are recorded in the failure
log but not carried in the raised error. -/
theorem c4_both_attempts_fail_error_text (α : Type) (env : Nat → AttemptEnv α)
    (model method : String) (st : ClientState) (e1 e2 : String)
    (h1 : (runAttempt (env 0) st).2 = .error e1)
    (h2 : (runAttempt (env 1) (recover (env 0) (runAttempt (env 0) st).1 e1)).2 =
      .error e2) :
    (execute_kw α env model method st).result = .error ("Erreur Odoo: " ++ e2) := by
  simp only [execute_kw, h1, h2]

/-- Witness for the amended C4: a call on an authenticated client whose two
attempts fail with "boom". -/
theorem c4_witness :
    (execute_kw String (fun _ => ⟨fun _ => .exn "down", .exn "boom", fun _ => .exn "down"⟩)
        "res.users" "search_read" ⟨"u", "d", "n", "k", some 7⟩).result =
      .error ("Erreur Odoo: " ++ "boom") :=
  c4_both_attempts_fail_error_text String
    (fun _ => ⟨fun _ => .exn "down", .exn "boom", fun _ => .exn "down"⟩)
    "res.users" "search_read" ⟨"u", "d", "n", "k", some 7⟩ "boom" "boom"
    (by decide) (by decide)

/-- C5 counterexample: a login carrying the override
(db "mydb", account "user@x", secret "k") mints a token whose embedded
`odoo_config` is exactly the record with the two fields db and username — the
secret "k" is not embedded, and no endpoint is embedded: the second conjunct
shows the embedded-override record type consists of the db and username
components and nothing else, so the claimed `{endpoint, database, account}`
triple is not what the token carries (the override has no endpoint field at
all, cf. models/schemas.py UserLogin). -/
theorem c5_counterexample_no_endpoint_embedded :
    (login (fun _ _ => true) (.ok ()) 0 API_USERS
        { username := "admin", password := "admin123", odoo_db := some "mydb",
          odoo_username := some "user@x", odoo_api_key := some "k" }).1 =
      .ok (.signed { sub := some "admin", scopes := some ["read", "write", "delete"],
                     iat := 0, exp := 1800,
                     odoo_config := some { db := some "mydb", username := some "user@x" } })
    ∧ ∀ c : TokenOdooConfig, c = { db := c.db, username := c.username } := by
  constructor
  · decide
  · intro c; cases c; rfl

/-- C5 (amended): for every identity that carries an upstream override, the
minted token embeds exactly the override's db and username (= account) fields
— never the api_key, and there is no endpoint to embed. -/
theorem c5_override_token_embeds_db_and_account (verify : String → String → Bool)
    (testConn : Except String Unit) (now : Nat) (store : Store) (ud : UserLogin)
    (tok : TokenStr) (store' : Store)
    (hov : (optStrTruthy ud.odoo_db || optStrTruthy ud.odoo_username
      || optStrTruthy ud.odoo_api_key) = true)
    (h : login verify testConn now store ud = (.ok tok, store')) :
    ∃ p : Payload, tok = .signed p
      ∧ p.odoo_config = some ⟨ud.odoo_db, ud.odoo_username⟩ := by
  unfold login at h
  split at h
  · simp at h
  · split at h
    · simp at h
    · split at h
      · simp at h
      · unfold login.mintToken at h
        simp only [] at h
        split at h
        · simp at h
        · simp only [Prod.mk.injEq, Except.ok.injEq] at h
          obtain ⟨htok, -⟩ := h
          exact ⟨_, htok.symm, rfl⟩

/-- Witness for the amended C5 at the concrete override login of the
counterexample. -/
theorem c5_witness :
    ∃ p : Payload,
      TokenStr.signed { sub := some "admin", scopes := some ["read", "write", "delete"],
                        iat := 0, exp := 1800,
                        odoo_config := some { db := some "mydb", username := some "user@x" } }
        = .signed p
      ∧ p.odoo_config = some ⟨some "mydb", some "user@x"⟩ :=
  c5_override_token_embeds_db_and_account (fun _ _ => true) (.ok ()) 0 API_USERS
    { username := "admin", password := "admin123", odoo_db := some "mydb",
      odoo_username := some "user@x", odoo_api_key := some "k" }
    (.signed { sub := some "admin", scopes := some ["read", "write", "delete"],
               iat := 0, exp := 1800,
               odoo_config := some { db := some "mydb", username := some "user@x" } })
    (storeSet API_USERS "admin"
      { admin_user with odoo_config := some ⟨some "mydb", some "user@x", some "k"⟩ })
    (by decide) (by decide)

/-- C6 counterexample: validating a token whose override names the account
"alice@elsewhere" — an account for which no server-side configuration exists
— attaches the default ODOO_CONFIG api_key to the resolved identity, while a
lookup keyed by the override's account name (`spec_rejoined_secret`, modelled
from the spec's words) yields nothing for that account: the re-join is not
keyed by the account name, it is the constant default secret
(security.py line 141). -/
theorem c6_counterexample_secret_not_keyed_by_account :
    (get_current_user API_USERS [] 0
        (.signed { sub := some "admin", scopes := some ["read"], iat := 0, exp := 10,
                   odoo_config := some ⟨some "db2", some "alice@elsewhere"⟩ })).1 =
      .ok (withAttachedOverride admin_user ⟨some "db2", some "alice@elsewhere"⟩)
    ∧ (withAttachedOverride admin_user ⟨some "db2", some "alice@elsewhere"⟩).odoo_config =
      some ⟨some "db2", some "alice@elsewhere", some ODOO_CONFIG.api_key⟩
    ∧ spec_rejoined_secret (some "alice@elsewhere") = none
    ∧ some ODOO_CONFIG.api_key ≠ (none : Option String) := by decide

/-- C6 (amended): the upstream secret is never persisted inside a token
payload — the payload embedded for an identity with an override is the
projection of the override onto its db and username fields, dropping the
api_key (first conjunct) — and at validation time of a standard-identity
token carrying an override, the secret attached to the resolved identity is
the server-side default configuration's api_key, irrespective of the
override's account name (second conjunct). -/
theorem c6_secret_rejoined_from_default_config :
    (∀ (user : UserRec) (now : Nat) (tok : TokenStr),
      login.mintToken user now = .ok tok →
      ∃ p : Payload, tok = .signed p
        ∧ p.odoo_config = user.odoo_config.map (fun c => ⟨c.db, c.username⟩))
    ∧ (∀ (store : Store) (rev : List TokenStr) (now : Nat) (p : Payload)
        (cfg : TokenOdooConfig) (uname : String) (user : UserRec),
      p.sub = some uname →
      startswith uname "employee_" = false →
      (TokenStr.signed p) ∉ rev →
      ¬ p.exp < now →
      p.odoo_config = some cfg →
      storeGet store uname = some user →
      user.is_active = true →
      ∃ u : UserRec, (get_current_user store rev now (.signed p)).1 = .ok u
        ∧ u.odoo_config = some ⟨cfg.db, cfg.username, some ODOO_CONFIG.api_key⟩) := by
  constructor
  · intro user now tok h
    unfold login.mintToken at h
    split at h
    · simp at h
    · simp only [Except.ok.injEq] at h
      exact ⟨_, h.symm, rfl⟩
  · intro store rev now p cfg uname user hsub hemp hrev hexp hcfg hstore hact
    refine ⟨withAttachedOverride user cfg, ?_, rfl⟩
    rw [get_current_user_std_override store rev now p cfg uname user
      hsub hemp hrev hexp hcfg hstore hact]

/-- Witness for the amended C6: both conjuncts instantiated — minting for the
admin user with an attached override, and validating the counterexample's
token. -/
theorem c6_witness :
    (∃ p : Payload,
      TokenStr.signed { sub := some "admin", scopes := some ["read", "write", "delete"],
                        iat := 3, exp := 1803,
                        odoo_config := some ⟨some "db2", some "alice@elsewhere"⟩ }
        = .signed p
      ∧ p.odoo_config =
          ({ admin_user with odoo_config := some ⟨some "db2", some "alice@elsewhere", some "k"⟩ }
            : UserRec).odoo_config.map (fun c => ⟨c.db, c.username⟩))
    ∧ (∃ u : UserRec,
      (get_current_user API_USERS [] 0
          (.signed { sub := some "admin", scopes := some ["read"], iat := 0, exp := 10,
                     odoo_config := some ⟨some "db2", some "alice@elsewhere"⟩ })).1 = .ok u
      ∧ u.odoo_config = some ⟨some "db2", some "alice@elsewhere", some ODOO_CONFIG.api_key⟩) :=
  ⟨c6_secret_rejoined_from_default_config.1
      { admin_user with odoo_config := some ⟨some "db2", some "alice@elsewhere", some "k"⟩ }
      3
      (.signed { sub := some "admin", scopes := some ["read", "write", "delete"],
                 iat := 3, exp := 1803,
                 odoo_config := some ⟨some "db2", some "alice@elsewhere"⟩ })
      (by decide),
   c6_secret_rejoined_from_default_config.2 API_USERS [] 0
      { sub := some "admin", scopes := some ["read"], iat := 0, exp := 10,
        odoo_config := some ⟨some "db2", some "alice@elsewhere"⟩ }
      ⟨some "db2", some "alice@elsewhere"⟩ "admin" admin_user
      (by decide) (by decide) (by decide) (by decide) (by decide) (by decide) (by decide)⟩

/-- C7: for every validated identity (a successful `get_current_user`
resolution) with scope set `sc` and every required scope, the guard admits
the identity exactly when the scope is in the identity's scopes or the
identity is PIN-authenticated and the required scope is "pos"; otherwise it
fails with the 403 Forbidden rejection. -/
theorem c7_require_scope_iff (store : Store) (rev : List TokenStr) (now : Nat)
    (tok : TokenStr) (u : UserRec) (store' : Store) (req : String) (sc : List String)
    (hval : get_current_user store rev now tok = (.ok u, store'))
    (hsc : u.scopes = some sc) :
    (require_scope req u = .ok u ↔
      (sc.contains req = true ∨ (u.auth_type_pin = true ∧ req = "pos")))
    ∧ (require_scope req u ≠ .ok u →
        require_scope req u =
          .error (.forbidden ("Permission insuffisante. Scope requis: " ++ req))) := by
  by_cases hb : (u.auth_type_pin && req == "pos") = true
  · have hreq : require_scope req u = .ok u := by simp [require_scope, hsc, hb]
    have hb' := hb
    rw [Bool.and_eq_true] at hb'
    refine ⟨?_, fun h' => absurd hreq h'⟩
    rw [hreq]
    exact ⟨fun _ => Or.inr ⟨hb'.1, eq_of_beq hb'.2⟩, fun _ => rfl⟩
  · rw [Bool.not_eq_true] at hb
    by_cases hc : sc.contains req = true
    · have hreq : require_scope req u = .ok u := by
        have hmem : req ∈ sc := (contains_eq_true_iff_mem req sc).mp hc
        simp [require_scope, hsc, hb, hc, hmem]
      refine ⟨?_, fun h' => absurd hreq h'⟩
      rw [hreq]
      exact ⟨fun _ => Or.inl hc, fun _ => rfl⟩
    · rw [Bool.not_eq_true] at hc
      have hnmem : ¬ req ∈ sc := fun hm => by
        rw [(contains_eq_true_iff_mem req sc).mpr hm] at hc
        exact Bool.noConfusion hc
      have hreq : require_scope req u =
          .error (.forbidden ("Permission insuffisante. Scope requis: " ++ req)) := by
        simp [require_scope, hsc, hb, hc, hnmem]
      refine ⟨?_, fun _ => hreq⟩
      rw [hreq]
      constructor
      · intro h'
        exact Except.noConfusion h'
      · intro h'
        rcases h' with h' | ⟨hp1, hp2⟩
        · rw [h'] at hc
          exact Bool.noConfusion hc
        · rw [hp1, hp2] at hb
          simp at hb

/-- Witness for C7: the validated admin identity, required scope "write". -/
theorem c7_witness :
    (require_scope "write" admin_user = .ok admin_user ↔
      ((["read", "write", "delete"] : List String).contains "write" = true
        ∨ (admin_user.auth_type_pin = true ∧ "write" = "pos")))
    ∧ (require_scope "write" admin_user ≠ .ok admin_user →
        require_scope "write" admin_user =
          .error (.forbidden ("Permission insuffisante. Scope requis: " ++ "write"))) :=
  c7_require_scope_iff API_USERS [] 5
    (.signed { sub := some "admin", scopes := some ["read", "write", "delete"],
               iat := 0, exp := 100 })
    admin_user API_USERS "write" ["read", "write", "delete"]
    (by decide) (by decide)

/-- C9: validating a standard-identity token that carries an upstream
override mutates the process-wide credential store: the override, with the
server-side secret attached, is written into the shared API_USERS entry for
that username (first and second conjuncts), and a subsequent validation of a
different token for the same username carrying no override resolves an
identity that still has the override attached (third conjunct). -/
theorem c9_validation_mutates_credential_store (store : Store)
    (rev : List TokenStr) (now1 now2 : Nat) (p1 p2 : Payload) (uname : String)
    (user : UserRec) (cfg : TokenOdooConfig)
    (hsub1 : p1.sub = some uname)
    (hemp : startswith uname "employee_" = false)
    (hcfg1 : p1.odoo_config = some cfg)
    (hrev1 : (TokenStr.signed p1) ∉ rev)
    (hexp1 : ¬ p1.exp < now1)
    (hstore : storeGet store uname = some user)
    (hact : user.is_active = true)
    (hsub2 : p2.sub = some uname)
    (hcfg2 : p2.odoo_config = none)
    (hrev2 : (TokenStr.signed p2) ∉ rev)
    (hexp2 : ¬ p2.exp < now2) :
    get_current_user store rev now1 (.signed p1) =
      (.ok (withAttachedOverride user cfg),
       storeSet store uname (withAttachedOverride user cfg))
    ∧ storeGet (storeSet store uname (withAttachedOverride user cfg)) uname =
        some (withAttachedOverride user cfg)
    ∧ (get_current_user (storeSet store uname (withAttachedOverride user cfg))
        rev now2 (.signed p2)).1 = .ok (withAttachedOverride user cfg) := by
  have h1 := get_current_user_std_override store rev now1 p1 cfg uname user
    hsub1 hemp hrev1 hexp1 hcfg1 hstore hact
  have h2 := storeGet_storeSet_self store uname user (withAttachedOverride user cfg) hstore
  have hact' : (withAttachedOverride user cfg).is_active = true := hact
  have h3 := get_current_user_std_plain
    (storeSet store uname (withAttachedOverride user cfg)) rev now2 p2 uname
    (withAttachedOverride user cfg) hsub2 hemp hrev2 hexp2 hcfg2 h2 hact'
  exact ⟨h1, h2, by rw [h3]⟩

/-- Witness for C9: the admin user, a first token carrying the override
(db2, alice), a second override-free token. -/
theorem c9_witness :
    get_current_user API_USERS [] 0
      (.signed { sub := some "admin", scopes := some ["read"], iat := 0, exp := 100,
                 odoo_config := some ⟨some "db2", some "alice"⟩ }) =
      (.ok (withAttachedOverride admin_user ⟨some "db2", some "alice"⟩),
       storeSet API_USERS "admin" (withAttachedOverride admin_user ⟨some "db2", some "alice"⟩))
    ∧ storeGet (storeSet API_USERS "admin"
        (withAttachedOverride admin_user ⟨some "db2", some "alice"⟩)) "admin" =
        some (withAttachedOverride admin_user ⟨some "db2", some "alice"⟩)
    ∧ (get_current_user (storeSet API_USERS "admin"
          (withAttachedOverride admin_user ⟨some "db2", some "alice"⟩)) [] 5
        (.signed { sub := some "admin", scopes := some ["read"], iat := 0, exp := 100 })).1 =
      .ok (withAttachedOverride admin_user ⟨some "db2", some "alice"⟩) :=
  c9_validation_mutates_credential_store API_USERS [] 0 5
    { sub := some "admin", scopes := some ["read"], iat := 0, exp := 100,
      odoo_config := some ⟨some "db2", some "alice"⟩ }
    { sub := some "admin", scopes := some ["read"], iat := 0, exp := 100 }
    "admin" admin_user ⟨some "db2", some "alice"⟩
    (by decide) (by decide) (by decide) (by decide) (by decide) (by decide)
    (by decide) (by decide) (by decide) (by decide) (by decide)

/-- The session handle delivered by one attempt, when it returned one. -/
def uidOf : AuthAttempt → Option Nat
  | .exn _ => none
  | .ret u => some u

/-- What C3 asserts of one `_authenticate` run: at most 3 attempts; on
success the client is Authenticated, holds the handle returned by the
succeeding attempt, and slept exactly once between consecutive attempts; on
exhaustion the raised error carries the last attempt's error text, all three
attempts failed, and the client holds no truthy session handle (it also
slept once after the final failed attempt, hence 3 sleeps). -/
def AuthenticateSpec (oracle : Nat → AuthAttempt) (st : ClientState) : Prop :=
  (authenticate' oracle st).attempts ≤ 3
  ∧ ((authenticate' oracle st).result = .ok () →
      (authenticate' oracle st).state.authenticated = true
      ∧ (authenticate' oracle st).state.uid =
          uidOf (oracle ((authenticate' oracle st).attempts - 1))
      ∧ (authenticate' oracle st).sleeps + 1 = (authenticate' oracle st).attempts)
  ∧ ((authenticate' oracle st).result ≠ .ok () →
      (authenticate' oracle st).result =
        .error ("Échec de l'authentification Odoo: " ++ (oracle 2).errMsg)
      ∧ (authenticate' oracle st).attempts = 3
      ∧ (authenticate' oracle st).sleeps = 3
      ∧ (oracle 0).fails = true ∧ (oracle 1).fails = true ∧ (oracle 2).fails = true
      ∧ (authenticate' oracle st).state.authenticated = false)

/-- C3: `_authenticate` run from an Unauthenticated client makes at most 3
attempts with a 1-second backoff between attempts; if any attempt succeeds
the session handle it returned is stored and the client ends Authenticated;
if all 3 fail, the raised UpstreamAuthFailure carries the last error and the
client remains Unauthenticated (no truthy session handle stored). -/
theorem c3_authenticate_retry (oracle : Nat → AuthAttempt) (st : ClientState)
    (h : st.authenticated = false) : AuthenticateSpec oracle st := by
  unfold AuthenticateSpec authenticate'
  rcases h0 : oracle 0 with m0 | u0
  · rcases h1 : oracle 1 with m1 | u1
    · rcases h2 : oracle 2 with m2 | u2
      · simp_all [authGo, AuthAttempt.fails, AuthAttempt.errMsg, uidOf,
          ClientState.authenticated, natTruthy, errText]
      · by_cases hz2 : u2 = 0
        · subst hz2
          simp_all [authGo, AuthAttempt.fails, AuthAttempt.errMsg, uidOf,
            ClientState.authenticated, natTruthy, errText]
        · simp_all [authGo, AuthAttempt.fails, AuthAttempt.errMsg, uidOf,
            ClientState.authenticated, natTruthy, errText]
    · by_cases hz1 : u1 = 0
      · subst hz1
        rcases h2 : oracle 2 with m2 | u2
        · simp_all [authGo, AuthAttempt.fails, AuthAttempt.errMsg, uidOf,
            ClientState.authenticated, natTruthy, errText]
        · by_cases hz2 : u2 = 0
          · subst hz2
            simp_all [authGo, AuthAttempt.fails, AuthAttempt.errMsg, uidOf,
              ClientState.authenticated, natTruthy, errText]
          · simp_all [authGo, AuthAttempt.fails, AuthAttempt.errMsg, uidOf,
              ClientState.authenticated, natTruthy, errText]
      · simp_all [authGo, AuthAttempt.fails, AuthAttempt.errMsg, uidOf,
          ClientState.authenticated, natTruthy, errText]
  · by_cases hz0 : u0 = 0
    · subst hz0
      rcases h1 : oracle 1 with m1 | u1
      · rcases h2 : oracle 2 with m2 | u2
        · simp_all [authGo, AuthAttempt.fails, AuthAttempt.errMsg, uidOf,
            ClientState.authenticated, natTruthy, errText]
        · by_cases hz2 : u2 = 0
          · subst hz2
            simp_all [authGo, AuthAttempt.fails, AuthAttempt.errMsg, uidOf,
              ClientState.authenticated, natTruthy, errText]
          · simp_all [authGo, AuthAttempt.fails, AuthAttempt.errMsg, uidOf,
              ClientState.authenticated, natTruthy, errText]
      · by_cases hz1 : u1 = 0
        · subst hz1
          rcases h2 : oracle 2 with m2 | u2
          · simp_all [authGo, AuthAttempt.fails, AuthAttempt.errMsg, uidOf,
              ClientState.authenticated, natTruthy, errText]
          · by_cases hz2 : u2 = 0
            · subst hz2
              simp_all [authGo, AuthAttempt.fails, AuthAttempt.errMsg, uidOf,
                ClientState.authenticated, natTruthy, errText]
            · simp_all [authGo, AuthAttempt.fails, AuthAttempt.errMsg, uidOf,
                ClientState.authenticated, natTruthy, errText]
        · simp_all [authGo, AuthAttempt.fails, AuthAttempt.errMsg, uidOf,
            ClientState.authenticated, natTruthy, errText]
    · simp_all [authGo, AuthAttempt.fails, AuthAttempt.errMsg, uidOf,
        ClientState.authenticated, natTruthy, errText]

/-- Witness for C3: the spec's concrete scenario — the upstream fails twice,
then succeeds on the third attempt — for a fresh unauthenticated client. -/
theorem c3_witness :
    ClientState.authenticated ⟨"https://erp.example", "db", "svc", "key", none⟩ = false
    ∧ AuthenticateSpec (fun k => if k < 2 then .exn "down" else .ret 7)
        ⟨"https://erp.example", "db", "svc", "key", none⟩ :=
  ⟨by decide,
   c3_authenticate_retry (fun k => if k < 2 then .exn "down" else .ret 7)
     ⟨"https://erp.example", "db", "svc", "key", none⟩ (by decide)⟩

theorem storeGet_API_USERS_cases (u : String) (user : UserRec)
    (h : storeGet API_USERS u = some user) :
    (u = "admin" ∧ user = admin_user) ∨ (u = "readonly" ∧ user = readonly_user)
    ∨ (u = "admin@jnpgroupe.com" ∧ user = odoo_admin_user) := by
  by_cases h1 : u = "admin"
  · subst h1
    rw [show storeGet API_USERS "admin" = some admin_user from by decide] at h
    exact Or.inl ⟨rfl, (Option.some.inj h).symm⟩
  · by_cases h2 : u = "readonly"
    · subst h2
      rw [show storeGet API_USERS "readonly" = some readonly_user from by decide] at h
      exact Or.inr (Or.inl ⟨rfl, (Option.some.inj h).symm⟩)
    · by_cases h3 : u = "admin@jnpgroupe.com"
      · subst h3
        rw [show storeGet API_USERS "admin@jnpgroupe.com" = some odoo_admin_user
          from by decide] at h
        exact Or.inr (Or.inr ⟨rfl, (Option.some.inj h).symm⟩)
      · exfalso
        have f1 : (("admin" : String) == u) = false :=
          beq_eq_false_iff_ne.mpr (Ne.symm h1)
        have f2 : (("readonly" : String) == u) = false :=
          beq_eq_false_iff_ne.mpr (Ne.symm h2)
        have f3 : (("admin@jnpgroupe.com" : String) == u) = false :=
          beq_eq_false_iff_ne.mpr (Ne.symm h3)
        simp [storeGet, API_USERS, List.find?, f1, f2, f3] at h

theorem login_roundtrip_generic (verify : String → String → Bool) (store : Store)
    (uname p : String) (user : UserRec) (sc : List String) (now now2 : Nat)
    (hacc : authenticate_user verify store uname p = some user)
    (hpne : (uname == "" || p == "") = false)
    (hsc : user.scopes = some sc)
    (hcfg : user.odoo_config = none)
    (hemp : startswith user.username "employee_" = false)
    (hself : storeGet store user.username = some user)
    (hact : user.is_active = true)
    (hexp : ¬ (now + ACCESS_TOKEN_EXPIRE_MINUTES * 60) < now2) :
    ∃ tok : TokenStr,
      login verify (.ok ()) now store ⟨uname, p, none, none, none⟩ = (.ok tok, store)
      ∧ (get_current_user store [] now2 tok).1 = .ok user := by
  refine ⟨.signed { sub := some user.username, scopes := some sc, iat := now,
                    exp := now + ACCESS_TOKEN_EXPIRE_MINUTES * 60 }, ?_, ?_⟩
  · unfold login
    simp only [hpne, hacc, Bool.false_eq_true, if_false]
    simp [login.mintToken, hsc, hcfg, create_access_token, optStrTruthy]
  · rw [get_current_user_std_plain store [] now2
      { sub := some user.username, scopes := some sc, iat := now,
        exp := now + ACCESS_TOKEN_EXPIRE_MINUTES * 60 }
      user.username user rfl hemp (List.not_mem_nil _) hexp rfl hself hact]

/-- C8: for every (username, password) pair the Credential Store accepts
(`authenticate_user` resolves it, with the bcrypt comparison abstracted by
the oracle `verify`), minting a token via login (no override) and
immediately validating it — before expiry, against an empty revocation set —
succeeds and yields an identity whose username and scopes equal those of the
stored identity. -/
theorem c8_issue_then_validate_roundtrip (verify : String → String → Bool)
    (u p : String) (user : UserRec) (now now2 : Nat)
    (hacc : authenticate_user verify API_USERS u p = some user)
    (hp : p ≠ "")
    (hexp : now2 ≤ now + ACCESS_TOKEN_EXPIRE_MINUTES * 60) :
    ∃ tok : TokenStr,
      login verify (.ok ()) now API_USERS ⟨u, p, none, none, none⟩ = (.ok tok, API_USERS)
      ∧ ∃ u' : UserRec,
          (get_current_user API_USERS [] now2 tok).1 = .ok u'
          ∧ u'.username = user.username ∧ u'.scopes = user.scopes := by
  have hstore : storeGet API_USERS u = some user := by
    unfold authenticate_user at hacc
    split at hacc
    · simp at hacc
    · next user₁ heq =>
      split at hacc
      · simp at hacc
      · split at hacc
        · rw [heq, Option.some.inj hacc]
        · simp at hacc
  have hpne : (u == "" || p == "") = false := by
    have hu : u ≠ "" := by
      intro hu0
      subst hu0
      rw [show storeGet API_USERS "" = none from by decide] at hstore
      exact Option.noConfusion hstore
    simp [hu, hp]
  have hexp' : ¬ (now + ACCESS_TOKEN_EXPIRE_MINUTES * 60) < now2 := by omega
  rcases storeGet_API_USERS_cases u user hstore with ⟨hu, hrec⟩ | ⟨hu, hrec⟩ | ⟨hu, hrec⟩ <;>
    subst hu <;> subst hrec
  · obtain ⟨tok, hlogin, hval⟩ := login_roundtrip_generic verify API_USERS "admin" p
      admin_user ["read", "write", "delete"] now now2 hacc hpne rfl rfl (by decide)
      (by decide) rfl hexp'
    exact ⟨tok, hlogin, admin_user, hval, rfl, rfl⟩
  · obtain ⟨tok, hlogin, hval⟩ := login_roundtrip_generic verify API_USERS "readonly" p
      readonly_user ["read"] now now2 hacc hpne rfl rfl (by decide)
      (by decide) rfl hexp'
    exact ⟨tok, hlogin, readonly_user, hval, rfl, rfl⟩
  · obtain ⟨tok, hlogin, hval⟩ := login_roundtrip_generic verify API_USERS
      "admin@jnpgroupe.com" p odoo_admin_user ["read", "write", "delete"] now now2
      hacc hpne rfl rfl (by decide) (by decide) rfl hexp'
    exact ⟨tok, hlogin, odoo_admin_user, hval, rfl, rfl⟩

/-- Witness for C8: the ("admin", "admin123") pair, with the bcrypt oracle
standing for the true comparison against the stored admin hash, validated
immediately at the same instant it was issued. -/
theorem c8_witness :
    ∃ tok : TokenStr,
      login (fun pw h => pw == "admin123"
          && h == "$2b$12$Ve.p30uPHQSVt2PBRTJU4.o37W2sD9vq7SMoR1UQJ4BkWb5/nsqVm")
        (.ok ()) 0 API_USERS ⟨"admin", "admin123", none, none, none⟩ = (.ok tok, API_USERS)
      ∧ ∃ u' : UserRec,
          (get_current_user API_USERS [] 0 tok).1 = .ok u'
          ∧ u'.username = admin_user.username ∧ u'.scopes = admin_user.scopes :=
  c8_issue_then_validate_roundtrip
    (fun pw h => pw == "admin123"
      && h == "$2b$12$Ve.p30uPHQSVt2PBRTJU4.o37W2sD9vq7SMoR1UQJ4BkWb5/nsqVm")
    "admin" "admin123" admin_user 0 0 (by decide) (by decide) (by decide)

end OdooApi
